import Mathlib

/-!
# Verification of `src/features/build_features.py` (Bitcoin-Daily-Navigator)

Shallow embedding of the feature-engineering pipeline `create_features`
(pandas backend).  Numeric cells are modelled as `Option ℚ`: `none` stands
for a floating NaN, `some q` for a defined value.  Exact rational
arithmetic stands in for IEEE doubles; the two places where IEEE
non-finite values can arise in this pipeline (division by zero) are
transcribed explicitly where they occur (`odiv`, `rsi`).
-/

namespace BuildFeatures

/-- The input bar series handed to `create_features`: a cleaned OHLCV
DataFrame.  Per the input contract the upstream cleaning stage guarantees
no missing values, so every column is a total function of the row
position.  Only `Close` and `Volume` are read by any computed feature;
`Open`/`High`/`Low` are carried through unchanged. -/
structure BarSeries where
  opn : ℕ → ℚ
  high : ℕ → ℚ
  low : ℕ → ℚ
  close : ℕ → ℚ
  volume : ℕ → ℚ

/-- IEEE division lifted to NaN-tracking cells, used for
`Series / Series` and `pct_change`.  A NaN operand propagates; `0/0` is
NaN; `x/0` with `x ≠ 0` is `±∞`, which is a *defined* (non-NaN) float —
its rational stand-in `x / 0 = 0` is never inspected by any claim below
(the positivity hypotheses of the theorems rule the case out wherever a
value, rather than definedness, is at stake). -/
def odiv (a b : Option ℚ) : Option ℚ :=
  match a, b with
  | some a, some b => if a = 0 ∧ b = 0 then none else some (a / b)
  | _, _ => none

/-- `Series.pct_change()`: NaN at position 0, `x[t]/x[t-1] - 1` after. -/
def pctChange (x : ℕ → ℚ) (t : ℕ) : Option ℚ :=
  if t = 0 then none else (odiv (some (x t)) (some (x (t - 1)))).map (· - 1)

/-- `Series.rolling(window=w).mean()` (default `min_periods = w`):
NaN while fewer than `w` observations are available, then the arithmetic
mean of `x[t-w+1 .. t]`. -/
def rollingMean (w : ℕ) (x : ℕ → ℚ) (t : ℕ) : Option ℚ :=
  if t + 1 < w then none
  else some ((∑ i ∈ Finset.Icc (t + 1 - w) t, x i) / w)

/-- `Series.rolling(window=w).std()` (sample standard deviation,
`ddof = 1`, `min_periods = w`).  Square roots do not exist in ℚ and no
claim reads the numeric value of this column — only where it is defined
and that it introduces no NaN of its own (a sample variance of rationals
is a non-negative rational, so its square root is always defined).  The
cell therefore carries the sample *variance* as a stand-in for its square
root; the defined/NaN domain is exactly that of the source. -/
def rollingStd (w : ℕ) (x : ℕ → ℚ) (t : ℕ) : Option ℚ :=
  if t + 1 < w then none
  else
    some ((∑ i ∈ Finset.Icc (t + 1 - w) t,
      (x i - (∑ j ∈ Finset.Icc (t + 1 - w) t, x j) / w) ^ 2) / (w - 1))

/-- `Series.ewm(alpha, adjust=False).mean()` on a NaN-free series:
`y[0] = x[0]`, `y[t] = α·x[t] + (1-α)·y[t-1]`. -/
def ewmRec (α : ℚ) (x : ℕ → ℚ) : ℕ → ℚ
  | 0 => x 0
  | t + 1 => α * x (t + 1) + (1 - α) * ewmRec α x t

/-- `Series.ewm(span=s, adjust=False).mean()`: smoothing factor
`α = 2/(s+1)`. -/
def ewmSpan (s : ℕ) (x : ℕ → ℚ) : ℕ → ℚ :=
  ewmRec (2 / (s + 1)) x

/-- `Series.shift(k)` on a NaN-tracking column: first `k` positions NaN,
then the source value `k` rows back. -/
def shift (k : ℕ) (x : ℕ → Option ℚ) (t : ℕ) : Option ℚ :=
  if t < k then none else x (t - k)

/-- `Series.cumsum()` (default `skipna=True`): NaN exactly where the
input is NaN; elsewhere the sum of all non-NaN inputs up to `t`. -/
def cumsum (x : ℕ → Option ℚ) (t : ℕ) : Option ℚ :=
  (x t).map fun _ => ∑ s ∈ Finset.range (t + 1), (x s).getD 0

/-- `np.sign` on a (defined) rational. -/
def qsign (q : ℚ) : ℚ :=
  if q > 0 then 1 else if q < 0 then -1 else 0

/-! ## The feature columns of the pandas backend

One definition per column assignment in `create_features`
(`build_features.py`, pandas branch), in source order. -/

/-- Line 39: `df_features['daily_return'] = df_features['Close'].pct_change()`. -/
def daily_return (b : BarSeries) : ℕ → Option ℚ :=
  pctChange b.close

/-- Line 88: `df_features['Close'].rolling(window=5).mean()`. -/
def SMA_5 (b : BarSeries) : ℕ → Option ℚ :=
  rollingMean 5 b.close

/-- Line 89: `df_features['Close'].ewm(span=5, adjust=False).mean()`.
Defined at every position (no warm-up gap). -/
def EMA_5 (b : BarSeries) (t : ℕ) : Option ℚ :=
  some (ewmSpan 5 b.close t)

/-- Line 90: `df_features['Close'].rolling(window=10).mean()`. -/
def SMA_10 (b : BarSeries) : ℕ → Option ℚ :=
  rollingMean 10 b.close

/-- Line 91: `df_features['Close'].ewm(span=10, adjust=False).mean()`. -/
def EMA_10 (b : BarSeries) (t : ℕ) : Option ℚ :=
  some (ewmSpan 10 b.close t)

/-- Lines 94–96: `delta = Close.diff()`; `gain = delta.where(delta > 0, 0)`.
`delta[0]` is NaN and `NaN > 0` is false, so `gain[0] = 0`; for `t ≥ 1`
the delta is kept when positive, else replaced by 0. -/
def gain (b : BarSeries) (t : ℕ) : ℚ :=
  if t = 0 then 0
  else if b.close t - b.close (t - 1) > 0 then b.close t - b.close (t - 1) else 0

/-- Line 96: `loss = -delta.where(delta < 0, 0)` (same NaN-at-0 remark). -/
def loss (b : BarSeries) (t : ℕ) : ℚ :=
  if t = 0 then 0
  else if b.close t - b.close (t - 1) < 0 then -(b.close t - b.close (t - 1)) else 0

/-- Line 97: `avg_gain = gain.ewm(com=13, adjust=False).mean()`:
`com = 13` gives `α = 1/(1+13) = 1/14` (Wilder smoothing, period 14). -/
def avg_gain (b : BarSeries) : ℕ → ℚ :=
  ewmRec (1 / 14) (gain b)

/-- Line 98: `avg_loss = loss.ewm(com=13, adjust=False).mean()`. -/
def avg_loss (b : BarSeries) : ℕ → ℚ :=
  ewmRec (1 / 14) (loss b)

/-- Lines 99–100: `rs = avg_gain / avg_loss`;
`RSI = 100 - (100 / (1 + rs))`, evaluated under IEEE float rules.
`avg_gain` and `avg_loss` are exponential averages of non-negative
sequences, hence non-negative, so the only edge is `avg_loss = 0`:
`0/0 = NaN` makes the whole expression NaN, while `g/0 = +∞` for `g > 0`
gives `100 - 100/(1 + ∞) = 100 - 0 = 100` (saturation, not special-cased
in the source).  Otherwise the expression is an ordinary finite value. -/
def RSI (b : BarSeries) (t : ℕ) : Option ℚ :=
  if avg_loss b t = 0 then
    if avg_gain b t = 0 then none else some 100
  else some (100 - 100 / (1 + avg_gain b t / avg_loss b t))

/-- Line 103: `ema_12 = Close.ewm(span=12, adjust=False).mean()`. -/
def ema_12 (b : BarSeries) : ℕ → ℚ :=
  ewmSpan 12 b.close

/-- Line 104: `ema_26 = Close.ewm(span=26, adjust=False).mean()`. -/
def ema_26 (b : BarSeries) : ℕ → ℚ :=
  ewmSpan 26 b.close

/-- Line 105: `df_features['MACD'] = ema_12 - ema_26`. -/
def MACD (b : BarSeries) (t : ℕ) : Option ℚ :=
  some (ema_12 b t - ema_26 b t)

/-- Line 106:
`df_features['MACD_Signal'] = df_features['MACD'].ewm(span=9, adjust=False).mean()` —
the span-9 exponential average applied to the MACD line itself. -/
def MACD_Signal (b : BarSeries) (t : ℕ) : Option ℚ :=
  some (ewmSpan 9 (fun s => ema_12 b s - ema_26 b s) t)

/-- Line 110: `df_features['SMA_BB'] = Close.rolling(window=20).mean()`
(intermediate column, dropped before emission). -/
def SMA_BB (b : BarSeries) : ℕ → Option ℚ :=
  rollingMean 20 b.close

/-- Line 111: `df_features['STD_BB'] = Close.rolling(window=20).std()`
(intermediate column, dropped before emission). -/
def STD_BB (b : BarSeries) : ℕ → Option ℚ :=
  rollingStd 20 b.close

/-- Line 112: `Bollinger_Upper = SMA_BB + STD_BB * 2` (NaN propagates). -/
def Bollinger_Upper (b : BarSeries) (t : ℕ) : Option ℚ :=
  match SMA_BB b t, STD_BB b t with
  | some m, some s => some (m + s * 2)
  | _, _ => none

/-- Line 113: `Bollinger_Lower = SMA_BB - STD_BB * 2` (NaN propagates). -/
def Bollinger_Lower (b : BarSeries) (t : ℕ) : Option ℚ :=
  match SMA_BB b t, STD_BB b t with
  | some m, some s => some (m - s * 2)
  | _, _ => none

/-- Line 116, the summand:
`Volume * np.sign(Close.diff())`.  `diff()` is NaN at position 0,
`np.sign(NaN) = NaN` and `Volume · NaN = NaN`, so position 0 is NaN. -/
def signedVolume (b : BarSeries) (t : ℕ) : Option ℚ :=
  if t = 0 then none else some (b.volume t * qsign (b.close t - b.close (t - 1)))

/-- Line 116:
`df_features['OBV'] = (Volume * np.sign(Close.diff())).cumsum()`. -/
def OBV (b : BarSeries) : ℕ → Option ℚ :=
  cumsum (signedVolume b)

/-- Lines 132–134: `Close_Lag_k = Close.shift(k)`. -/
def Close_Lag (b : BarSeries) (k : ℕ) : ℕ → Option ℚ :=
  shift k (fun t => some (b.close t))

/-- Line 135: `Return_Lag_1 = daily_return.shift(1)`. -/
def Return_Lag_1 (b : BarSeries) : ℕ → Option ℚ :=
  shift 1 (daily_return b)

/-- Line 136: `Volume_Lag_1 = Volume.shift(1)`. -/
def Volume_Lag_1 (b : BarSeries) : ℕ → Option ℚ :=
  shift 1 (fun t => some (b.volume t))

/-- Line 142: `Price_vs_SMA10 = Close / SMA_10` (IEEE division; NaN where
`SMA_10` is NaN). -/
def Price_vs_SMA10 (b : BarSeries) (t : ℕ) : Option ℚ :=
  odiv (some (b.close t)) (SMA_10 b t)

/-- Line 147: `Avg_Volume_10 = Volume.rolling(window=10).mean()`
(intermediate column, dropped at line 151). -/
def Avg_Volume_10 (b : BarSeries) : ℕ → Option ℚ :=
  rollingMean 10 b.volume

/-- Line 148: `Volume_vs_Avg_Vol10 = Volume / Avg_Volume_10`. -/
def Volume_vs_Avg_Vol10 (b : BarSeries) (t : ℕ) : Option ℚ :=
  odiv (some (b.volume t)) (Avg_Volume_10 b t)

/-! ## Row trimming (`dropna`, lines 154–164)

`df_features.dropna(inplace=True)` keeps a row exactly when every column
of the table — the five carried-through OHLCV columns plus every
engineered column — is defined there.  The OHLCV cells come from total
functions (the input contract guarantees no missing values), so they are
always defined; they are listed anyway, mirroring the table schema of a
fault-free run. -/

/-- A row survives `dropna` iff every cell of the row is non-NaN. -/
def rowComplete (b : BarSeries) (t : ℕ) : Bool :=
  (some (b.opn t)).isSome && (some (b.high t)).isSome &&
  (some (b.low t)).isSome && (some (b.close t)).isSome &&
  (some (b.volume t)).isSome &&
  (daily_return b t).isSome &&
  (SMA_5 b t).isSome && (EMA_5 b t).isSome &&
  (SMA_10 b t).isSome && (EMA_10 b t).isSome &&
  (RSI b t).isSome &&
  (MACD b t).isSome && (MACD_Signal b t).isSome &&
  (Bollinger_Upper b t).isSome && (Bollinger_Lower b t).isSome &&
  (OBV b t).isSome &&
  (Close_Lag b 1 t).isSome && (Close_Lag b 2 t).isSome &&
  (Close_Lag b 3 t).isSome && (Return_Lag_1 b t).isSome &&
  (Volume_Lag_1 b t).isSome &&
  (Price_vs_SMA10 b t).isSome && (Volume_vs_Avg_Vol10 b t).isSome

/-- The row positions of the emitted feature table, for an input of `n`
bars: the rows of `0..n-1` surviving `dropna`. -/
def retainedRows (b : BarSeries) (n : ℕ) : List ℕ :=
  (List.range n).filter (fun t => rowComplete b t)

/-- `df_features.shape[0]` after `dropna`. -/
def featureRowCount (b : BarSeries) (n : ℕ) : ℕ :=
  (retainedRows b n).length

/-! ## Column-schema model of the pipeline's control flow

`create_features` manipulates the working DataFrame's column set through
assignments (`df_features['name'] = ...`) and guarded drops.  This model
tracks the ordered column-name list through the function body, with an
optional fault position inside the `try` block of lines 45–127: the
single `except Exception` at line 126 catches a throw raised by the k-th
statement of the block, skipping the rest of the block (including the
intermediate-column drops at lines 120–124) and resuming at the lag
stage (line 130). -/

/-- One column-set effect of a pandas statement. -/
inductive Effect where
  | addCol : String → Effect
  | dropCol : String → Effect
deriving DecidableEq

/-- `df['name'] = ...` appends a new column (or overwrites in place);
`df.drop(columns=['name'], inplace=True)` removes it — every drop in the
source is guarded by `if col in df.columns`, so a missing column is a
no-op. -/
def applyEffect (cols : List String) : Effect → List String
  | .addCol n => if n ∈ cols then cols else cols ++ [n]
  | .dropCol n => cols.filter (fun c => c ≠ n)

/-- Fold a statement list over a column set. -/
def applyEffects (cols : List String) (es : List Effect) : List String :=
  es.foldl applyEffect cols

/-- The column effects of the `try` block (lines 45–127, pandas branch),
in statement order: twelve indicator-column assignments, then the two
guarded intermediate drops of lines 120–124. -/
def tryBlockEffects : List Effect :=
  [.addCol "SMA_5", .addCol "EMA_5", .addCol "SMA_10", .addCol "EMA_10",
   .addCol "RSI", .addCol "MACD", .addCol "MACD_Signal",
   .addCol "SMA_BB", .addCol "STD_BB",
   .addCol "Bollinger_Upper", .addCol "Bollinger_Lower",
   .addCol "OBV",
   .dropCol "SMA_BB", .dropCol "STD_BB"]

/-- The columns of the cleaned OHLCV input (`df.copy()`, line 33). -/
def inputCols : List String :=
  ["Open", "High", "Low", "Close", "Volume"]

/-- The column set of the emitted table, given an optional fault: when
`fault = some k`, the k-th statement of the `try` block throws, the
handler at line 126 swallows the exception, and control falls through to
the lag (132–136) and interaction (141–151) stages.  The interaction
stage re-checks column presence (`if 'SMA_10' in df_features.columns`,
`if 'Volume_Lag_1' in df_features.columns`), exactly as the source does.
`dropna` removes rows, never columns, so this is also the final schema. -/
def finalCols (fault : Option ℕ) : List String :=
  let c0 := applyEffects inputCols [.addCol "daily_return"]
  let c1 := applyEffects c0
    (match fault with
     | none => tryBlockEffects
     | some k => tryBlockEffects.take k)
  let c2 := applyEffects c1
    [.addCol "Close_Lag_1", .addCol "Close_Lag_2", .addCol "Close_Lag_3",
     .addCol "Return_Lag_1", .addCol "Volume_Lag_1"]
  let c3 := if "SMA_10" ∈ c2 then applyEffects c2 [.addCol "Price_vs_SMA10"] else c2
  if "Volume_Lag_1" ∈ c3 then
    applyEffects c3
      [.addCol "Avg_Volume_10", .addCol "Volume_vs_Avg_Vol10",
       .dropCol "Avg_Volume_10"]
  else c3

/-- The names assigned by the indicator statements of the `try` block, in
order (the add-effects prefix of `tryBlockEffects`). -/
def indicatorNames : List String :=
  ["SMA_5", "EMA_5", "SMA_10", "EMA_10", "RSI", "MACD", "MACD_Signal",
   "SMA_BB", "STD_BB", "Bollinger_Upper", "Bollinger_Lower", "OBV"]

/-! ## Call-level behavior (input validation and exceptions)

What a caller of `create_features` observes, as a function of the input's
shape.  `build_features.py` defines no `InputError` class anywhere; the
observable outcomes are: the function returns `None` (lines 28–30),
an uncaught `KeyError` escapes, or a feature table is returned. -/

/-- The input as the caller hands it over: possibly `None`, otherwise a
frame with a column list and a row count. -/
structure RawFrame where
  cols : List String
  nrows : ℕ

/-- The observable outcome of calling `create_features`. -/
inductive CallOutcome where
  | returnedNone : CallOutcome
  | keyError : String → CallOutcome
  | returnedTable : List String → CallOutcome
deriving DecidableEq

/-- Call-level trace of `create_features(df)` (pandas backend):
* `df is None or df.empty` (line 28) → print a message and `return None`
  (line 30) — no exception is raised and no table is produced;
* missing `Close` → `df_features['Close'].pct_change()` at line 39 raises
  an uncaught `KeyError` (it sits outside the `try` block);
* missing `Volume` → the OBV statement (line 116) raises inside the
  `try` block and is swallowed at line 126, the lag stage then raises an
  uncaught `KeyError` at line 136 (`df_features['Volume'].shift(1)`);
* otherwise the full pipeline runs and the table is returned. -/
def create_features_call (input : Option RawFrame) : CallOutcome :=
  match input with
  | none => .returnedNone
  | some f =>
    if f.nrows = 0 then .returnedNone
    else if "Close" ∉ f.cols then .keyError "Close"
    else if "Volume" ∉ f.cols then .keyError "Volume"
    else .returnedTable (finalCols none)

/-! ## Caller-frame preservation (no in-place mutation of the input)

Line 33 (`df_features = df.copy()`) is the only statement that touches
the caller's frame other than the `df is None or df.empty` test; every
subsequent assignment and every `inplace=True` operation targets the
copy.  The model threads both frames through the whole body as explicit
state. -/

/-- A DataFrame as a value: schema plus cells (`none` = NaN). -/
structure DFrame where
  cols : List String
  cell : String → ℕ → Option ℚ
  nrows : ℕ

/-- `df.copy()`: a deep copy — a fresh object with identical contents. -/
def DFrame.copy (d : DFrame) : DFrame := d

/-- The local state of `create_features` after line 33: the caller's
frame `df` and the working copy `df_features`. -/
structure PipelineState where
  df : DFrame
  df_features : DFrame

/-- One body statement of `create_features` acting on the working copy
(column assignment, guarded drop, or `dropna`): only `df_features` is
ever assigned. -/
def runBodyStep (f : DFrame → DFrame) (s : PipelineState) : PipelineState :=
  { s with df_features := f s.df_features }

/-- The whole body of `create_features` after the copy at line 33, as a
fold of statements over the state: the caller's `df` field is threaded
through untouched, whatever the statement list does. -/
def runBody (steps : List (DFrame → DFrame)) (s : PipelineState) : PipelineState :=
  steps.foldl (fun st f => runBodyStep f st) s

/-- `create_features` at the state level: check emptiness against the
caller's frame, make the copy, run the body on the copy, and return both
the caller's frame as the call leaves it and the result. -/
def create_features_state (steps : List (DFrame → DFrame)) (df : DFrame) :
    DFrame × Option DFrame :=
  if df.nrows = 0 then (df, none)
  else
    let s := runBody steps { df := df, df_features := DFrame.copy df }
    (s.df, some s.df_features)

/-! ## Module import (line 5)

Line 4 of `build_features.py` reads `# Uncomment the line below if you
have TA-Lib installed and want to use it`, but line 5 — `import talib` —
is *not* commented out.  A Python module-level import runs when the
module is first loaded, before any function in it can be called. -/

/-- Whether `import build_features` itself succeeds: the module-scope
`import talib` at line 5 raises `ImportError` whenever the TA-Lib package
is absent, so the module only loads when TA-Lib is installed.  The
`try/except ImportError` fallback inside `create_features`
(lines 50–54) can therefore never observe a missing TA-Lib. -/
def moduleImportSucceeds (talibInstalled : Bool) : Bool :=
  talibInstalled

/-- Whether `create_features` can be called at all in an environment:
it requires its defining module to have loaded. -/
def create_features_callable (talibInstalled : Bool) : Bool :=
  moduleImportSucceeds talibInstalled

/-! ## Spec-side column list and concrete test inputs -/

/-- The column set the spec declares for the emitted table (the claimed
feature list, written from the spec's words, to be compared with
`finalCols` computed from the source): daily_return, the configured
moving/exponential averages, RSI, MACD + signal, Bollinger upper/lower,
OBV, the five lag columns, the two interaction ratios — and nothing
else. -/
def specFeatureCols : List String :=
  ["daily_return", "SMA_5", "EMA_5", "SMA_10", "EMA_10", "RSI",
   "MACD", "MACD_Signal", "Bollinger_Upper", "Bollinger_Lower", "OBV",
   "Close_Lag_1", "Close_Lag_2", "Close_Lag_3", "Return_Lag_1",
   "Volume_Lag_1", "Price_vs_SMA10", "Volume_vs_Avg_Vol10"]

/-- A constant bar series: every OHLC price 1, every volume 1.  A valid
input (positive prices, positive volume, strictly increasing dates). -/
def constBar : BarSeries :=
  ⟨fun _ => 1, fun _ => 1, fun _ => 1, fun _ => 1, fun _ => 1⟩

/-- A bar series with strictly increasing close prices
(`close[t] = t + 1`) and unit volume. -/
def linBar : BarSeries :=
  ⟨fun t => (t : ℚ) + 1, fun t => (t : ℚ) + 1, fun t => (t : ℚ) + 1,
   fun t => (t : ℚ) + 1, fun _ => 1⟩

/-- A bar series whose close rises once (1 then 2) and stays flat. -/
def riseBar : BarSeries :=
  ⟨fun t => if t = 0 then 1 else 2, fun t => if t = 0 then 1 else 2,
   fun t => if t = 0 then 1 else 2, fun t => if t = 0 then 1 else 2,
   fun _ => 1⟩

/-! ## Helper lemmas -/

/-- `runBody` only ever assigns the `df_features` slot: the caller's
frame is threaded through every statement untouched. -/
lemma runBody_df (steps : List (DFrame → DFrame)) :
    ∀ s : PipelineState, (runBody steps s).df = s.df := by
  induction steps with
  | nil => intro s; rfl
  | cons f rest ih => intro s; exact ih _

/-- An exponential average of a non-negative sequence is non-negative
(for a smoothing factor in `[0, 1]`). -/
lemma ewmRec_nonneg {α : ℚ} (hα0 : 0 ≤ α) (hα1 : α ≤ 1) {x : ℕ → ℚ}
    (hx : ∀ s, 0 ≤ x s) : ∀ t, 0 ≤ ewmRec α x t := by
  intro t
  induction t with
  | zero => exact hx 0
  | succ t ih =>
    have h1 : 0 ≤ α * x (t + 1) := mul_nonneg hα0 (hx _)
    have h2 : 0 ≤ (1 - α) * ewmRec α x t :=
      mul_nonneg (by linarith) ih
    show 0 ≤ α * x (t + 1) + (1 - α) * ewmRec α x t
    linarith

/-- For a smoothing factor strictly between 0 and 1, the exponential
average of a non-negative sequence vanishes at `t` exactly when every
term up to `t` vanishes. -/
lemma ewmRec_eq_zero_iff {α : ℚ} (hα0 : 0 < α) (hα1 : α < 1) {x : ℕ → ℚ}
    (hx : ∀ s, 0 ≤ x s) :
    ∀ t, (ewmRec α x t = 0 ↔ ∀ s ≤ t, x s = 0) := by
  intro t
  induction t with
  | zero =>
    constructor
    · intro h s hs
      have : s = 0 := Nat.le_zero.mp hs
      simpa [this] using h
    · intro h; exact h 0 le_rfl
  | succ t ih =>
    have h1 : 0 ≤ α * x (t + 1) := mul_nonneg hα0.le (hx _)
    have h2 : 0 ≤ (1 - α) * ewmRec α x t :=
      mul_nonneg (by linarith) (ewmRec_nonneg hα0.le hα1.le hx t)
    constructor
    · intro h s hs
      have hsum : α * x (t + 1) = 0 ∧ (1 - α) * ewmRec α x t = 0 := by
        constructor <;> nlinarith [h1, h2,
          show α * x (t + 1) + (1 - α) * ewmRec α x t = 0 from h]
      have hx1 : x (t + 1) = 0 := by
        rcases mul_eq_zero.mp hsum.1 with h' | h'
        · exact absurd h' hα0.ne'
        · exact h'
      have hrec : ewmRec α x t = 0 := by
        rcases mul_eq_zero.mp hsum.2 with h' | h'
        · exact absurd h' (by intro hc; linarith)
        · exact h'
      rcases Nat.lt_or_ge s (t + 1) with hlt | hge
      · exact (ih.mp hrec) s (Nat.lt_succ_iff.mp hlt)
      · have : s = t + 1 := le_antisymm hs hge
        simpa [this] using hx1
    · intro h
      have hx1 : x (t + 1) = 0 := h (t + 1) le_rfl
      have hrec : ewmRec α x t = 0 :=
        ih.mpr fun s hs => h s (hs.trans (Nat.le_succ t))
      show α * x (t + 1) + (1 - α) * ewmRec α x t = 0
      rw [hx1, hrec]; ring

/-- The exponential average of an identically-zero sequence is zero. -/
lemma ewmRec_eq_zero_of {α : ℚ} {x : ℕ → ℚ} (h : ∀ s, x s = 0) :
    ∀ t, ewmRec α x t = 0 := by
  intro t
  induction t with
  | zero => exact h 0
  | succ t ih =>
    show α * x (t + 1) + (1 - α) * ewmRec α x t = 0
    rw [h (t + 1), ih]; ring

lemma gain_nonneg (b : BarSeries) (t : ℕ) : 0 ≤ gain b t := by
  unfold gain; split
  · exact le_refl 0
  · split
    · linarith [‹b.close t - b.close (t - 1) > 0›]
    · exact le_refl 0

lemma loss_nonneg (b : BarSeries) (t : ℕ) : 0 ≤ loss b t := by
  unfold loss; split
  · exact le_refl 0
  · split
    · linarith [‹b.close t - b.close (t - 1) < 0›]
    · exact le_refl 0

lemma avg_gain_nonneg (b : BarSeries) (t : ℕ) : 0 ≤ avg_gain b t :=
  ewmRec_nonneg (by norm_num) (by norm_num) (gain_nonneg b) t

lemma avg_loss_nonneg (b : BarSeries) (t : ℕ) : 0 ≤ avg_loss b t :=
  ewmRec_nonneg (by norm_num) (by norm_num) (loss_nonneg b) t

/-- Once the close has moved at least once (here: between bars 0 and 1),
the RSI cell is defined at every later position: the smoothed gain and
loss can no longer both vanish. -/
lemma rsi_isSome (b : BarSeries) {t : ℕ} (ht : 1 ≤ t)
    (hne : b.close 1 ≠ b.close 0) : (RSI b t).isSome := by
  unfold RSI
  split
  · split
    · rename_i hl hg
      have hgz : gain b 1 = 0 :=
        ((ewmRec_eq_zero_iff (by norm_num) (by norm_num)
          (gain_nonneg b)) t).mp hg 1 ht
      have hlz : loss b 1 = 0 :=
        ((ewmRec_eq_zero_iff (by norm_num) (by norm_num)
          (loss_nonneg b)) t).mp hl 1 ht
      exfalso
      unfold gain at hgz
      unfold loss at hlz
      simp only [Nat.one_ne_zero, if_false] at hgz hlz
      rcases lt_trichotomy (b.close 1 - b.close 0) 0 with h | h | h
      · rw [if_pos h] at hlz; linarith
      · exact hne (by linarith)
      · rw [if_pos h] at hgz; linarith
    · rfl
  · rfl

/-! ## Claim theorems -/

/-- **C5.** Every exponential-moving-average column of the pipeline
(EMA_5, EMA_10 and the MACD EMAs, spans 12 and 26) satisfies
`value[0] = series[0]` and, for every `t > 0`,
`value[t] = α·series[t] + (1-α)·value[t-1]` with `α = 2/(span+1)`; the
EMA columns are defined from position 0 with no warm-up gap. -/
theorem c5_ema_recurrence :
    (∀ (s : ℕ) (x : ℕ → ℚ), ewmSpan s x 0 = x 0) ∧
    (∀ (s : ℕ) (x : ℕ → ℚ) (t : ℕ),
      ewmSpan s x (t + 1) =
        (2 / ((s : ℚ) + 1)) * x (t + 1) +
        (1 - 2 / ((s : ℚ) + 1)) * ewmSpan s x t) ∧
    (∀ (b : BarSeries) (t : ℕ),
      EMA_5 b t = some (ewmSpan 5 b.close t) ∧
      EMA_10 b t = some (ewmSpan 10 b.close t) ∧
      ema_12 b t = ewmSpan 12 b.close t ∧
      ema_26 b t = ewmSpan 26 b.close t ∧
      (EMA_5 b t).isSome ∧ (EMA_10 b t).isSome) := by
  refine ⟨fun s x => rfl, fun s x t => ?_, fun b t => ⟨rfl, rfl, rfl, rfl, rfl, rfl⟩⟩
  show ewmRec _ x (t + 1) = _
  rfl

/-- **C6.** The MACD_Signal column is the span-9 exponential moving
average (same recurrence rule) applied to the MACD column itself, where
MACD = EMA(close, 12) − EMA(close, 26); both columns are defined from
position 0. -/
theorem c6_macd_signal_composition :
    ∀ (b : BarSeries) (t : ℕ),
      MACD b t = some (ema_12 b t - ema_26 b t) ∧
      ema_12 b t = ewmSpan 12 b.close t ∧
      ema_26 b t = ewmSpan 26 b.close t ∧
      MACD_Signal b t = some (ewmSpan 9 (fun s => (MACD b s).getD 0) t) ∧
      (MACD b t).isSome ∧ (MACD_Signal b t).isSome := by
  intro b t
  refine ⟨rfl, rfl, rfl, ?_, rfl, rfl⟩
  have hfun : (fun s => (MACD b s).getD 0) = fun s => ema_12 b s - ema_26 b s := by
    funext s; rfl
  rw [hfun]; rfl

/-- **C4.** The claim that a missing TA-Lib triggers a silent fallback
is defeated before `create_features` can even run: line 5 of
`build_features.py` is an unconditional module-scope `import talib`
(despite line 4's comment saying it should be uncommented only when
TA-Lib is installed), so in an environment without TA-Lib the module
fails to import and no call — with any backend argument — can succeed;
the in-function `try/except ImportError` fallback (lines 50–54) is dead
code. -/
theorem c4_module_import_fails_without_talib :
    moduleImportSucceeds false = false ∧
    create_features_callable false = false ∧
    moduleImportSucceeds true = true :=
  ⟨rfl, rfl, rfl⟩

/-- **C9.** `create_features` never mutates the caller's input frame:
the body works exclusively on the `df.copy()` made at line 33, and
whatever the sequence of body statements does to the working copy, the
caller's frame as the call leaves it is identical — same schema, same
cells, same row count — to the frame passed in. -/
theorem c9_input_not_mutated :
    ∀ (steps : List (DFrame → DFrame)) (df : DFrame),
      (create_features_state steps df).fst = df ∧ DFrame.copy df = df := by
  intro steps df
  refine ⟨?_, rfl⟩
  unfold create_features_state
  split
  · rfl
  · exact runBody_df steps _

/-- **C8 (counterexample).** The emitted table's column set is *not*
exactly the declared feature list: the five carried-through input
columns survive — `Open` is a column of the fault-free output but not of
the feature list. -/
theorem c8_counterexample :
    "Open" ∈ finalCols none ∧ "Open" ∉ specFeatureCols := by
  decide

/-- **C8 (amended).** The emitted table's column set is the five input
OHLCV columns followed by exactly the declared feature list — the
eighteen features in pipeline order — with the computation-only columns
(`SMA_BB`, `STD_BB`, `Avg_Volume_10`) removed before emission and no
other column present. -/
theorem c8_columns_amended :
    finalCols none = inputCols ++ specFeatureCols ∧
    "SMA_BB" ∉ finalCols none ∧ "STD_BB" ∉ finalCols none ∧
    "Avg_Volume_10" ∉ finalCols none := by
  decide

/-- **C7 (counterexample).** Failure is *not* contained to the failing
indicator: a throw inside the RSI computation (statement index 4 of the
`try` block) leaves the MACD column — whose own computation never ran,
let alone failed — absent from the output, rather than "every other
indicator still computed". -/
theorem c7_counterexample :
    "MACD" ∉ finalCols (some 4) ∧ "OBV" ∉ finalCols (some 4) ∧
    "SMA_BB" ∈ finalCols (some 11) := by
  decide

/-- **C7 (amended).** An exception inside any indicator computation
(statement `k` of the twelve in the `try` block) is caught at the
granularity of the *whole indicator block*, not of one indicator: the
columns assigned before the failing statement survive, the failing and
every later indicator column are absent from the output (not
NaN-marked), the intermediate-column drops are skipped, and the pipeline
still continues through the lag and interaction stages (the
`Price_vs_SMA10` interaction is itself skipped exactly when `SMA_10` was
never assigned, i.e. when the fault hits one of the first three
statements). -/
theorem c7_fault_granularity_amended :
    ∀ k : Fin 12,
      (∀ nm ∈ indicatorNames.take k.val, nm ∈ finalCols (some k.val)) ∧
      (∀ nm ∈ indicatorNames.drop k.val, nm ∉ finalCols (some k.val)) ∧
      "daily_return" ∈ finalCols (some k.val) ∧
      "Close_Lag_1" ∈ finalCols (some k.val) ∧
      "Close_Lag_2" ∈ finalCols (some k.val) ∧
      "Close_Lag_3" ∈ finalCols (some k.val) ∧
      "Return_Lag_1" ∈ finalCols (some k.val) ∧
      "Volume_Lag_1" ∈ finalCols (some k.val) ∧
      "Volume_vs_Avg_Vol10" ∈ finalCols (some k.val) ∧
      ("Price_vs_SMA10" ∈ finalCols (some k.val) ↔ 3 ≤ k.val) := by
  decide

/-- **C7 (witness).** The amended fault behavior at the concrete fault
position 4 (the RSI statement): the SMA_5 column assigned earlier is in
the output, the MACD column assigned later is not. -/
theorem c7_fault_witness :
    "SMA_5" ∈ finalCols (some 4) ∧ "MACD" ∉ finalCols (some 4) :=
  ⟨(c7_fault_granularity_amended 4).1 "SMA_5" (by decide),
   (c7_fault_granularity_amended 4).2.1 "MACD" (by decide)⟩

/-- **C3 (counterexample).** On an empty series `create_features` does
not raise anything, let alone an `InputError` (no such class exists in
the repository): it prints a message and returns `None`. -/
theorem c3_counterexample :
    create_features_call (some ⟨inputCols, 0⟩) = CallOutcome.returnedNone ∧
    create_features_call none = CallOutcome.returnedNone := by
  decide

/-- **C3 (amended).** On an empty or absent (`None`) series
`create_features` returns `None` after printing a message — it does not
raise; on a series missing the `Volume` column the indicator-stage
failure is swallowed and an uncaught `KeyError` then escapes from the
lag stage.  In all of these cases no feature table — not even a partial
one — is returned to the caller. -/
theorem c3_failfast_amended :
    create_features_call none = CallOutcome.returnedNone ∧
    (∀ cols : List String,
      create_features_call (some ⟨cols, 0⟩) = CallOutcome.returnedNone) ∧
    (∀ n : ℕ, 0 < n →
      create_features_call (some ⟨["Open", "High", "Low", "Close"], n⟩) =
        CallOutcome.keyError "Volume") ∧
    (∀ (cols : List String) (n : ℕ), n = 0 ∨ "Volume" ∉ cols →
      ∀ tbl, create_features_call (some ⟨cols, n⟩) ≠
        CallOutcome.returnedTable tbl) := by
  refine ⟨rfl, fun cols => rfl, fun n hn => ?_, fun cols n h tbl => ?_⟩
  · simp only [create_features_call]
    rw [if_neg (by omega)]
    rw [if_neg (by decide), if_pos (by decide)]
  · simp only [create_features_call]
    split
    · exact fun hc => CallOutcome.noConfusion hc
    · split
      · exact fun hc => CallOutcome.noConfusion hc
      · split
        · exact fun hc => CallOutcome.noConfusion hc
        · rename_i hn hcl hvol
          rcases h with h | h
          · exact absurd h hn
          · exact absurd h hvol

/-- **C3 (witness).** The amended behavior at concrete inputs: a
non-empty 5-row frame without a `Volume` column makes the call raise
`KeyError('Volume')`, and no table comes out of a frame with zero
rows. -/
theorem c3_failfast_witness :
    (0 < 5 ∧
      create_features_call (some ⟨["Open", "High", "Low", "Close"], 5⟩) =
        CallOutcome.keyError "Volume") ∧
    create_features_call (some ⟨inputCols, 0⟩) ≠
      CallOutcome.returnedTable (finalCols none) :=
  ⟨⟨by decide, c3_failfast_amended.2.2.1 5 (by decide)⟩,
   c3_failfast_amended.2.2.2 inputCols 0 (Or.inl rfl) (finalCols none)⟩

/-- At every position `t + 1 ≥ 1` the OBV cell is the running sum of the
signed volumes seen so far. -/
lemma OBV_succ (b : BarSeries) (t : ℕ) :
    OBV b (t + 1) =
      some (∑ s ∈ Finset.range (t + 2), (signedVolume b s).getD 0) := by
  unfold OBV cumsum
  have h : signedVolume b (t + 1) =
      some (b.volume (t + 1) * qsign (b.close (t + 1) - b.close t)) := by
    unfold signedVolume
    rw [if_neg (Nat.succ_ne_zero t)]
    simp
  rw [h]
  rfl

/-- The signed volume at a position `t + 2 ≥ 1`, as the three-way
close-price comparison the claim states. -/
lemma signedVolume_getD (b : BarSeries) (t : ℕ) :
    (signedVolume b (t + 2)).getD 0 =
      (if b.close (t + 2) > b.close (t + 1) then b.volume (t + 2)
       else if b.close (t + 2) < b.close (t + 1) then -(b.volume (t + 2))
       else 0) := by
  unfold signedVolume qsign
  rw [if_neg (Nat.succ_ne_zero (t + 1))]
  simp only [show t + 2 - 1 = t + 1 from rfl, Option.getD_some]
  rcases lt_trichotomy (b.close (t + 2)) (b.close (t + 1)) with h | h | h <;>
    split_ifs <;> first | ring1 | (exfalso; linarith)

/-- **C1 (counterexample).** The OBV column is *not* defined at `t = 0`:
`Close.diff()` is NaN there, `np.sign(NaN)` is NaN, and `cumsum`
preserves that NaN, so `OBV[0]` is NaN rather than 0 — already on the
constant unit series. -/
theorem c1_counterexample :
    OBV constBar 0 = none ∧ OBV constBar 0 ≠ some 0 := by
  constructor
  · rfl
  · intro h; exact Option.noConfusion h

/-- **C1 (amended).** `OBV[0]` is undefined (NaN), not 0; from position
1 on the column is defined, `OBV[1]` equals the signed volume at 1, and
for every `t ≥ 2` the step `OBV[t] - OBV[t-1]` is `+volume[t]`,
`-volume[t]`, or `0` according as `close[t]` is above, below, or equal
to `close[t-1]` — the step rule of the claim holds everywhere except at
the (undefined) origin. -/
theorem c1_obv_amended :
    ∀ b : BarSeries,
      OBV b 0 = none ∧
      OBV b 1 = some (b.volume 1 * qsign (b.close 1 - b.close 0)) ∧
      ∀ t : ℕ, ∃ v w : ℚ,
        OBV b (t + 1) = some v ∧ OBV b (t + 2) = some w ∧
        w - v = (if b.close (t + 2) > b.close (t + 1) then b.volume (t + 2)
                 else if b.close (t + 2) < b.close (t + 1) then -(b.volume (t + 2))
                 else 0) := by
  intro b
  refine ⟨rfl, ?_, ?_⟩
  · rw [OBV_succ b 0]
    congr 1
    rw [Finset.sum_range_succ, Finset.sum_range_one]
    unfold signedVolume
    rw [if_pos rfl, if_neg (Nat.one_ne_zero)]
    simp
  · intro t
    refine ⟨∑ s ∈ Finset.range (t + 2), (signedVolume b s).getD 0,
            ∑ s ∈ Finset.range (t + 3), (signedVolume b s).getD 0,
            OBV_succ b t, OBV_succ b (t + 1), ?_⟩
    rw [Finset.sum_range_succ]
    rw [← signedVolume_getD b t]
    ring

/-- **C10.** Wherever the RSI column is defined, its value lies in the
closed interval `[0, 100]`: the smoothed average gain and loss are
non-negative, so `RS ≥ 0` and `100 - 100/(1+RS)` is pinched between 0
and 100; the value is exactly 100 precisely when the average loss is 0
while the average gain is positive (the saturated `RS = +∞` case). -/
theorem c10_rsi_bounded :
    ∀ (b : BarSeries) (t : ℕ) (v : ℚ), RSI b t = some v →
      0 ≤ v ∧ v ≤ 100 ∧ (v = 100 ↔ avg_loss b t = 0 ∧ 0 < avg_gain b t) := by
  intro b t v h
  unfold RSI at h
  by_cases hl : avg_loss b t = 0
  · rw [if_pos hl] at h
    by_cases hg : avg_gain b t = 0
    · rw [if_pos hg] at h; exact absurd h (by simp)
    · rw [if_neg hg] at h
      have hv : v = 100 := by injection h with h'; exact h'.symm
      have hgpos : 0 < avg_gain b t :=
        lt_of_le_of_ne (avg_gain_nonneg b t) (Ne.symm hg)
      subst hv
      exact ⟨by norm_num, le_refl _, by simp [hl, hgpos]⟩
  · rw [if_neg hl] at h
    have hlpos : 0 < avg_loss b t :=
      lt_of_le_of_ne (avg_loss_nonneg b t) (Ne.symm hl)
    have hrs : 0 ≤ avg_gain b t / avg_loss b t :=
      div_nonneg (avg_gain_nonneg b t) hlpos.le
    have h1 : (0 : ℚ) < 1 + avg_gain b t / avg_loss b t := by linarith
    have hfrac_pos : 0 < 100 / (1 + avg_gain b t / avg_loss b t) := by positivity
    have hfrac_le : 100 / (1 + avg_gain b t / avg_loss b t) ≤ 100 := by
      rw [div_le_iff₀ h1]; nlinarith
    have hv : v = 100 - 100 / (1 + avg_gain b t / avg_loss b t) := by
      injection h with h'; exact h'.symm
    subst hv
    refine ⟨by linarith, by linarith, ?_⟩
    constructor
    · intro he; exfalso; linarith [he]
    · rintro ⟨he, _⟩; exact absurd he hl

/-- **C10 (witness).** On the series whose close rises from 1 to 2, the
RSI at position 1 is defined (it is the saturated value 100) and the
bound theorem applies to it. -/
theorem c10_rsi_witness :
    0 ≤ (100 : ℚ) ∧ (100 : ℚ) ≤ 100 ∧
      ((100 : ℚ) = 100 ↔ avg_loss riseBar 1 = 0 ∧ 0 < avg_gain riseBar 1) := by
  have hloss : ∀ s, loss riseBar s = 0 := by
    intro s
    unfold loss riseBar
    cases s with
    | zero => simp
    | succ n =>
      by_cases hn : n = 0 <;> simp [hn]
  have hl : avg_loss riseBar 1 = 0 := by
    have := ewmRec_eq_zero_of (α := 1 / 14) hloss 1
    simpa [avg_loss] using this
  have e1 : ewmRec ((1 : ℚ) / 14) (gain riseBar) 1 =
      1 / 14 * gain riseBar 1 + (1 - 1 / 14) * ewmRec (1 / 14) (gain riseBar) 0 :=
    rfl
  have hg1 : gain riseBar 1 = 1 := by
    unfold gain riseBar; norm_num
  have hg0 : ewmRec ((1 : ℚ) / 14) (gain riseBar) 0 = 0 := by
    show gain riseBar 0 = 0
    unfold gain; simp
  have hg : avg_gain riseBar 1 = 1 / 14 := by
    show ewmRec ((1 : ℚ) / 14) (gain riseBar) 1 = 1 / 14
    rw [e1, hg1, hg0]; norm_num
  have hrsi : RSI riseBar 1 = some 100 := by
    unfold RSI
    rw [if_pos hl, if_neg (by rw [hg]; norm_num)]
  exact c10_rsi_bounded riseBar 1 100 hrsi

/-- With a positive close price in the denominator's history, the daily
return is defined at every position after the first. -/
lemma daily_return_isSome (b : BarSeries) (hc : ∀ s, 0 < b.close s)
    {t : ℕ} (ht : 1 ≤ t) : (daily_return b t).isSome := by
  have h2 : b.close (t - 1) ≠ 0 := (hc (t - 1)).ne'
  simp [daily_return, pctChange, odiv, show ¬t = 0 by omega, h2]

/-- Once a 20-bar history exists, both Bollinger bands are defined. -/
lemma bollinger_isSome (b : BarSeries) {t : ℕ} (ht : 19 ≤ t) :
    (Bollinger_Upper b t).isSome ∧ (Bollinger_Lower b t).isSome := by
  unfold Bollinger_Upper Bollinger_Lower SMA_BB STD_BB rollingMean rollingStd
  simp [show ¬t + 1 < 20 by omega]

/-- Before a 20-bar history exists, the Bollinger upper band is NaN. -/
lemma bollinger_upper_none (b : BarSeries) {t : ℕ} (ht : t < 19) :
    Bollinger_Upper b t = none := by
  unfold Bollinger_Upper SMA_BB STD_BB rollingMean rollingStd
  rw [if_pos (by omega : t + 1 < 20)]

/-- The OBV cell is defined at every position after the first. -/
lemma obv_isSome (b : BarSeries) {t : ℕ} (ht : 1 ≤ t) :
    (OBV b t).isSome := by
  obtain ⟨u, rfl⟩ : ∃ u, t = u + 1 := ⟨t - 1, by omega⟩
  rw [OBV_succ]; rfl

/-- A row at position `t ≥ 19` of a bar series with positive closes,
positive volumes, and a moved close between bars 0 and 1 has every cell
defined: it survives `dropna`. -/
lemma rowComplete_of_ge (b : BarSeries)
    (hc : ∀ s, 0 < b.close s) (hv : ∀ s, 0 < b.volume s)
    (hne : b.close 1 ≠ b.close 0) {t : ℕ} (ht : 19 ≤ t) :
    rowComplete b t = true := by
  have h1 : (daily_return b t).isSome := daily_return_isSome b hc (by omega)
  have h2 : (SMA_5 b t).isSome := by
    unfold SMA_5 rollingMean; rw [if_neg (by omega : ¬t + 1 < 5)]; rfl
  have h3 : (SMA_10 b t).isSome := by
    unfold SMA_10 rollingMean; rw [if_neg (by omega : ¬t + 1 < 10)]; rfl
  have h4 : (RSI b t).isSome := rsi_isSome b (by omega) hne
  have h5 : (Bollinger_Upper b t).isSome := (bollinger_isSome b ht).1
  have h6 : (Bollinger_Lower b t).isSome := (bollinger_isSome b ht).2
  have h7 : (OBV b t).isSome := obv_isSome b (by omega)
  have h8 : (Close_Lag b 1 t).isSome := by
    unfold Close_Lag shift; rw [if_neg (by omega : ¬t < 1)]; rfl
  have h9 : (Close_Lag b 2 t).isSome := by
    unfold Close_Lag shift; rw [if_neg (by omega : ¬t < 2)]; rfl
  have h10 : (Close_Lag b 3 t).isSome := by
    unfold Close_Lag shift; rw [if_neg (by omega : ¬t < 3)]; rfl
  have h11 : (Return_Lag_1 b t).isSome := by
    unfold Return_Lag_1 shift; rw [if_neg (by omega : ¬t < 1)]
    exact daily_return_isSome b hc (by omega)
  have h12 : (Volume_Lag_1 b t).isSome := by
    unfold Volume_Lag_1 shift; rw [if_neg (by omega : ¬t < 1)]; rfl
  have h13 : (Price_vs_SMA10 b t).isSome := by
    unfold Price_vs_SMA10 SMA_10 rollingMean
    rw [if_neg (by omega : ¬t + 1 < 10)]
    simp [odiv, (hc t).ne']
  have h14 : (Volume_vs_Avg_Vol10 b t).isSome := by
    unfold Volume_vs_Avg_Vol10 Avg_Volume_10 rollingMean
    rw [if_neg (by omega : ¬t + 1 < 10)]
    simp [odiv, (hv t).ne']
  simp [rowComplete, EMA_5, EMA_10, MACD, MACD_Signal,
    h1, h2, h3, h4, h5, h6, h7, h8, h9, h10, h11, h12, h13, h14]

/-- A row at position `t < 19` always has a NaN cell (the Bollinger
bands cannot be computed yet): it is dropped. -/
lemma rowComplete_of_lt (b : BarSeries) {t : ℕ} (ht : t < 19) :
    rowComplete b t = false := by
  simp [rowComplete, bollinger_upper_none b ht]

/-- Length of the `19 ≤ t` tail of `range n`. -/
lemma length_filter_ge19 (n : ℕ) :
    ((List.range n).filter (fun t => decide (19 ≤ t))).length = n - 19 := by
  induction n with
  | zero => rfl
  | succ n ih =>
    rw [List.range_succ, List.filter_append, List.length_append, ih]
    by_cases h : 19 ≤ n
    · simp only [List.filter_cons, List.filter_nil, decide_eq_true h]
      simp
      omega
    · simp only [List.filter_cons, List.filter_nil]
      rw [decide_eq_false h]
      simp
      omega

/-- **C2 (amended).** For a valid input of length `n ≥ 20` with positive
closes and volumes whose close price moves between the first two bars,
the emitted table has exactly `n - 19` rows — precisely the first 19
rows (the Bollinger warm-up) are dropped — the row count never exceeds
the input length, and every retained row has every column defined (zero
NaN cells).  The data-independence part of the original claim is false:
without the close-movement condition RSI can be NaN beyond the warm-up
and more rows are dropped (see the counterexample). -/
theorem c2_rowcount_amended (b : BarSeries) (n : ℕ)
    (hc : ∀ s, 0 < b.close s) (hv : ∀ s, 0 < b.volume s)
    (hne : b.close 1 ≠ b.close 0) (_hn : 20 ≤ n) :
    featureRowCount b n = n - 19 ∧
    featureRowCount b n ≤ n ∧
    ∀ t ∈ retainedRows b n, rowComplete b t = true := by
  have hiff : ∀ t, rowComplete b t = decide (19 ≤ t) := by
    intro t
    by_cases h : 19 ≤ t
    · rw [rowComplete_of_ge b hc hv hne h, decide_eq_true h]
    · rw [rowComplete_of_lt b (by omega), decide_eq_false h]
  have hfilter : retainedRows b n =
      (List.range n).filter (fun t => decide (19 ≤ t)) := by
    unfold retainedRows
    exact List.filter_congr (fun t _ => hiff t)
  refine ⟨?_, ?_, ?_⟩
  · unfold featureRowCount; rw [hfilter, length_filter_ge19]
  · unfold featureRowCount retainedRows
    calc ((List.range n).filter (fun t => rowComplete b t)).length
        ≤ (List.range n).length := List.length_filter_le _ _
      _ = n := List.length_range n
  · intro t htmem
    exact List.of_mem_filter htmem

/-- **C2 (witness).** On the strictly rising 20-bar series
`close[t] = t + 1`, volume 1, exactly one row survives: the first 19 are
dropped and the table has `20 - 19 = 1` row, within the input length. -/
theorem c2_rowcount_witness :
    featureRowCount linBar 20 = 1 ∧ featureRowCount linBar 20 ≤ 20 := by
  have h := c2_rowcount_amended linBar 20
    (fun s => by show (0 : ℚ) < (s : ℚ) + 1; positivity)
    (fun s => one_pos)
    (by norm_num [linBar])
    le_rfl
  exact ⟨h.1.trans (by norm_num), h.2.1⟩

/-- **C2 (counterexample).** The "exactly the first 19 rows are dropped"
part is false for a valid constant series: with every close equal, every
delta is zero, the smoothed gain and loss are identically zero, RSI is
`0/0 = NaN` at *every* position, and `dropna` removes all 20 rows — the
emitted table is empty instead of having `20 - 19 = 1` row. -/
theorem c2_rowcount_counterexample :
    featureRowCount constBar 20 = 0 ∧ featureRowCount constBar 20 ≠ 20 - 19 := by
  have hg : ∀ s, gain constBar s = 0 := by
    intro s; unfold gain constBar; simp
  have hl : ∀ s, loss constBar s = 0 := by
    intro s; unfold loss constBar; simp
  have hrsi : ∀ t, RSI constBar t = none := by
    intro t; unfold RSI
    rw [if_pos (show avg_loss constBar t = 0 from ewmRec_eq_zero_of hl t),
      if_pos (show avg_gain constBar t = 0 from ewmRec_eq_zero_of hg t)]
  have hrc : ∀ t, rowComplete constBar t = false := by
    intro t; simp [rowComplete, hrsi t]
  have hnil : retainedRows constBar 20 = [] := by
    unfold retainedRows
    refine List.filter_eq_nil_iff.mpr fun a _ => ?_
    simp [hrc a]
  constructor
  · unfold featureRowCount; rw [hnil]; rfl
  · unfold featureRowCount; rw [hnil]; decide

end BuildFeatures
